import Mathlib

/-
Shallow embedding of the UAV flight-data analysis platform's trajectory-metrics
and cross-flight analytics engine.

Sources embedded here:
- models/TrajectoryAnalyzer.js  (per-flight trajectory metrics)
- models/UAVDataProcessor.js    (descriptive statistics: calculateStats)
- the analysis routes module    (trend direction, trend summary, network impact,
  Pearson correlation, common-issue identification, flight comparison)

JavaScript numbers are idealized as exact rationals; square roots live in ℝ.
Divisions whose JavaScript result can be NaN or ±Infinity are modelled
explicitly through the JsNum type.
-/

namespace UAV

/-- Idealized JavaScript number produced by a division: a finite rational,
positive or negative Infinity, or NaN. -/
inductive JsNum where
  | fin (q : ℚ)
  | posInf
  | negInf
  | nan
deriving DecidableEq

/-- JavaScript division a / b: finite quotient when b ≠ 0, otherwise
NaN (0 / 0) or a signed Infinity. -/
def jsDiv (a b : ℚ) : JsNum :=
  if b = 0 then
    (if a = 0 then JsNum.nan else if 0 < a then JsNum.posInf else JsNum.negInf)
  else JsNum.fin (a / b)

/-- JavaScript comparison x > c: false for NaN, true for +Infinity. -/
def JsNum.gtQ : JsNum → ℚ → Bool
  | JsNum.fin q, c => decide (c < q)
  | JsNum.posInf, _ => true
  | JsNum.negInf, _ => false
  | JsNum.nan, _ => false

/-- JavaScript comparison x < c: false for NaN, true for -Infinity. -/
def JsNum.ltQ : JsNum → ℚ → Bool
  | JsNum.fin q, c => decide (q < c)
  | JsNum.posInf, _ => false
  | JsNum.negInf, _ => true
  | JsNum.nan, _ => false

/-- Multiplication of a JavaScript number by a positive rational constant:
Infinities and NaN are preserved. -/
def JsNum.mulPos : JsNum → ℚ → JsNum
  | JsNum.fin q, c => JsNum.fin (q * c)
  | x, _ => x

/-- Whether a JavaScript number is a finite value (not NaN, not ±Infinity). -/
def JsNum.isFinite : JsNum → Bool
  | JsNum.fin _ => true
  | _ => false

/-- Average of a list via reduce-sum divided by length, as the analysis routes
compute half-averages. Callers only apply it to non-empty lists; on the empty
list the ℚ convention 0 / 0 = 0 is never relied upon. -/
def listAvg (l : List ℚ) : ℚ := l.sum / l.length

/-- First half of the series: slice(0, floor(length / 2)). -/
def firstHalfAvg (l : List ℚ) : ℚ := listAvg (l.take (l.length / 2))

/-- Second half of the series: slice(floor(length / 2)). -/
def secondHalfAvg (l : List ℚ) : ℚ := listAvg (l.drop (l.length / 2))

/-- The changePercent computed by calculateTrendDirection:
((secondAvg - firstAvg) / firstAvg) * 100 under JavaScript division semantics. -/
def changePercentJs (l : List ℚ) : JsNum :=
  (jsDiv (secondHalfAvg l - firstHalfAvg l) (firstHalfAvg l)).mulPos 100

/-- calculateTrendDirection from the analysis routes module: splits the series
into halves by index and classifies the relative change of the half-averages. -/
def calculateTrendDirection (l : List ℚ) : String :=
  if l.length < 2 then "insufficient_data"
  else if (changePercentJs l).gtQ 10 then "improving"
  else if (changePercentJs l).ltQ (-10) then "declining"
  else "stable"

/-- Result record of calculateTrendSummary. The overallChange value is kept as
a JsNum (the source appends a percent sign via toFixed, which is elided);
averageValue is the value before toFixed formatting. -/
structure TrendSummary where
  totalDataPoints : Nat
  overallChange : JsNum
  trend : String
  averageValue : ℚ
deriving DecidableEq

/-- The overall change of calculateTrendSummary, indexing the first and last
values as the source does (trends[0].value and trends[trends.length - 1].value):
((lastValue - firstValue) / firstValue) * 100 under JavaScript semantics. -/
def overallChangeJs (values : List ℚ) : JsNum :=
  (jsDiv (values.getD (values.length - 1) 0 - values.getD 0 0) (values.getD 0 0)).mulPos 100

/-- calculateTrendSummary from the analysis routes module; the
fewer-than-two-points branch returns the insufficient-data message, modelled
as none. -/
def calculateTrendSummary (values : List ℚ) : Option TrendSummary :=
  if values.length < 2 then none
  else
    let change := overallChangeJs values
    some { totalDataPoints := values.length
         , overallChange := change
         , trend :=
             if change.gtQ 5 then "improving"
             else if change.ltQ (-5) then "declining"
             else "stable"
         , averageValue := listAvg values }

/-- Result record of UAVDataProcessor.calculateStats. -/
structure Stats where
  average : ℚ
  median : ℚ
  min : ℚ
  max : ℚ
deriving DecidableEq

/-- The ascending value-sorted copy produced by values.slice().sort((a, b) => a - b);
insertion sort yields the same (unique) sorted permutation. -/
def sortedCopy (values : List ℚ) : List ℚ := values.insertionSort (· ≤ ·)

/-- UAVDataProcessor.calculateStats: all-zero record on empty input, otherwise
average, the element at index floor(length / 2) of the sorted copy as the
median, and the first and last sorted elements as min and max. -/
def calculateStats (values : List ℚ) : Stats :=
  if values.length = 0 then ⟨0, 0, 0, 0⟩
  else
    { average := values.sum / values.length
    , median := (sortedCopy values).getD ((sortedCopy values).length / 2) 0
    , min := (sortedCopy values).getD 0 0
    , max := (sortedCopy values).getD ((sortedCopy values).length - 1) 0 }

/-- One telemetry sample as consumed by TrajectoryAnalyzer: coordinates, time,
optional error components, flight phase, stabilization flag and an optional
sequence index. Optional JavaScript fields are modelled as Option. -/
structure Position where
  x : ℚ
  y : ℚ
  z : ℚ
  time : ℚ
  error : Option ℚ
  error_xy : Option ℚ
  error_z : Option ℚ
  phase : String
  stabilized : Bool
  sequence_index : Option Nat

/-- TrajectoryAnalyzer.calculateMean: 0 on the empty list, otherwise sum / length. -/
def calculateMean (values : List ℚ) : ℚ :=
  if values.length = 0 then 0 else values.sum / values.length

/-- TrajectoryAnalyzer.calculateStandardDeviation: population standard deviation,
the square root of the mean of squared deviations; 0 on the empty list. -/
noncomputable def calculateStandardDeviation (values : List ℚ) : ℝ :=
  if values.length = 0 then 0
  else Real.sqrt ((calculateMean (values.map fun v => (v - calculateMean values) ^ 2) : ℚ))

/-- Per-axis error statistics block (xyPlaneAccuracy / altitudeAccuracy). -/
structure AxisAccuracy where
  average : ℚ
  max : ℚ
  min : ℚ
deriving DecidableEq

/-- Result record of TrajectoryAnalyzer.calculatePathAccuracy. -/
structure PathAccuracy where
  averageError : ℚ
  maxError : ℚ
  minError : ℚ
  totalPoints : Nat
  xyPlaneAccuracy : AxisAccuracy
  altitudeAccuracy : AxisAccuracy
deriving DecidableEq

/-- Math.min spread over a list; callers only use it on non-empty lists. -/
def jsMinList (l : List ℚ) : ℚ :=
  match l with
  | [] => 0
  | a :: t => t.foldl min a

/-- Math.max spread over a list; callers only use it on non-empty lists. -/
def jsMaxList (l : List ℚ) : ℚ :=
  match l with
  | [] => 0
  | a :: t => t.foldl max a

/-- TrajectoryAnalyzer.calculatePathAccuracy: accumulates the samples that carry
an error value (maxDeviation starts at 0 and is only raised), and computes the
XY-plane and altitude statistics over the samples exposing those components. -/
def calculatePathAccuracy (positions : List Position) : PathAccuracy :=
  let errors := positions.filterMap fun p => p.error
  let xyErrors := positions.filterMap fun p => p.error_xy
  let zErrors := positions.filterMap fun p => p.error_z
  let totalDeviation := errors.sum
  let maxDeviation := errors.foldl max 0
  { averageError := if errors.length > 0 then totalDeviation / errors.length else 0
  , maxError := maxDeviation
  , minError := if errors.length > 0 then jsMinList errors else 0
  , totalPoints := errors.length
  , xyPlaneAccuracy :=
      { average := if xyErrors.length > 0 then calculateMean xyErrors else 0
      , max := if xyErrors.length > 0 then jsMaxList xyErrors else 0
      , min := if xyErrors.length > 0 then jsMinList xyErrors else 0 }
  , altitudeAccuracy :=
      { average := if zErrors.length > 0 then calculateMean zErrors else 0
      , max := if zErrors.length > 0 then jsMaxList zErrors else 0
      , min := if zErrors.length > 0 then jsMinList zErrors else 0 } }

/-- JavaScript default Array.sort comparator: lexicographic on the decimal
string rendering of the numbers. -/
def jsDefaultSortNat (l : List Nat) : List Nat :=
  l.insertionSort (fun a b => toString a ≤ toString b)

/-- TrajectoryAnalyzer.extractSequenceInfo: the set of sequence_index values,
deduplicated and sorted with the default (string) comparator. -/
def extractSequenceInfo (positions : List Position) : List Nat :=
  jsDefaultSortNat (positions.filterMap fun p => p.sequence_index).dedup

/-- Result record of TrajectoryAnalyzer.calculateBasicStats. -/
structure BasicStats where
  totalPoints : Nat
  waypointPoints : Nat
  transitPoints : Nat
  sequenceIndices : List Nat
deriving DecidableEq

/-- TrajectoryAnalyzer.calculateBasicStats. -/
def calculateBasicStats (positions : List Position) : BasicStats :=
  { totalPoints := positions.length
  , waypointPoints := (positions.filter fun p => p.phase == "waypoint").length
  , transitPoints := (positions.filter fun p => p.phase == "transit").length
  , sequenceIndices := extractSequenceInfo positions }

/-- Per-phase block of TrajectoryAnalyzer.analyzePhases. -/
structure PhaseStats where
  count : Nat
  averageError : ℚ
  stabilizedCount : Nat
  stabilizationRate : ℚ
deriving DecidableEq

/-- Result record of TrajectoryAnalyzer.analyzePhases. -/
structure PhaseAnalysis where
  waypoint : PhaseStats
  transit : PhaseStats
deriving DecidableEq

/-- The per-partition statistics computed (identically for the waypoint and
transit partitions) by TrajectoryAnalyzer.analyzePhases: count, mean of the
defaulted errors, stabilized count, and the stabilized fraction. -/
def phaseStatsOf (ps : List Position) : PhaseStats :=
  { count := ps.length
  , averageError := if ps.length > 0 then calculateMean (ps.map fun p => p.error.getD 0) else 0
  , stabilizedCount := (ps.filter fun p => p.stabilized).length
  , stabilizationRate :=
      if ps.length > 0 then ((ps.filter fun p => p.stabilized).length : ℚ) / ps.length else 0 }

/-- TrajectoryAnalyzer.analyzePhases: partitions the samples by phase. -/
def analyzePhases (positions : List Position) : PhaseAnalysis :=
  { waypoint := phaseStatsOf (positions.filter fun p => p.phase == "waypoint")
  , transit := phaseStatsOf (positions.filter fun p => p.phase == "transit") }

/-- Result record of TrajectoryAnalyzer.calculateStabilityMetrics. -/
structure StabilityMetrics where
  stabilizationRatio : ℚ
  stabilizedPoints : Nat
  unstabilizedPoints : Nat
  errorVariance : ℝ
  overallStabilityScore : ℝ

/-- TrajectoryAnalyzer.calculateStabilityMetrics: stabilization ratio, the
standard deviation of the (defaulted) errors stored as errorVariance, and the
overall score max(0, 100 - errorVariance * 1000). -/
noncomputable def calculateStabilityMetrics (positions : List Position) : StabilityMetrics :=
  let stabilizedCount := (positions.filter fun p => p.stabilized).length
  let errors := positions.map fun p => p.error.getD 0
  let errorVariance := calculateStandardDeviation errors
  { stabilizationRatio :=
      if positions.length > 0 then (stabilizedCount : ℚ) / positions.length else 0
  , stabilizedPoints := stabilizedCount
  , unstabilizedPoints := positions.length - stabilizedCount
  , errorVariance := errorVariance
  , overallStabilityScore := max 0 (100 - errorVariance * 1000) }

/-- An ideal-path waypoint: a 3-coordinate point. -/
abbrev Waypoint := ℚ × ℚ × ℚ

/-- Result record of TrajectoryAnalyzer.calculateEfficiency. The degenerate
early return carries no excessDistance field, modelled as none. -/
structure Efficiency where
  actualDistance : ℝ
  idealDistance : ℝ
  efficiencyRatio : ℝ
  excessDistance : Option ℝ

/-- TrajectoryAnalyzer.calculateActualDistance: sum of Euclidean distances
between consecutive samples. -/
noncomputable def calculateActualDistance (positions : List Position) : ℝ :=
  ((positions.zip positions.tail).map fun pr =>
    Real.sqrt (((pr.2.x - pr.1.x) ^ 2 + (pr.2.y - pr.1.y) ^ 2 + (pr.2.z - pr.1.z) ^ 2 : ℚ))).sum

/-- The ideal distance computed inside TrajectoryAnalyzer.calculateEfficiency:
sum of Euclidean distances between consecutive ideal-path waypoints. -/
noncomputable def calculateIdealDistance (sequence : List Waypoint) : ℝ :=
  ((sequence.zip sequence.tail).map fun pr =>
    Real.sqrt (((pr.2.1 - pr.1.1) ^ 2 + (pr.2.2.1 - pr.1.2.1) ^ 2
      + (pr.2.2.2 - pr.1.2.2) ^ 2 : ℚ))).sum

/-- TrajectoryAnalyzer.calculateEfficiency. In JavaScript,
idealDistance / actualDistance is +Infinity when actualDistance = 0 and
idealDistance > 0, and Math.min(1.0, +Infinity) = 1.0; that case is folded into
the first conditional below. -/
noncomputable def calculateEfficiency (positions : List Position)
    (sequence : Option (List Waypoint)) : Efficiency :=
  match sequence with
  | none =>
      { efficiencyRatio := 0.85
      , actualDistance := calculateActualDistance positions
      , idealDistance := 0
      , excessDistance := none }
  | some seq =>
      if seq.length < 2 then
        { efficiencyRatio := 0.85
        , actualDistance := calculateActualDistance positions
        , idealDistance := 0
        , excessDistance := none }
      else
        let actualDistance := calculateActualDistance positions
        let idealDistance := calculateIdealDistance seq
        let efficiencyRatio : ℝ :=
          if 0 < idealDistance ∧ actualDistance = 0 then 1
          else min 1 (if 0 < idealDistance then idealDistance / actualDistance else 0.85)
        { actualDistance := actualDistance
        , idealDistance := idealDistance
        , efficiencyRatio := efficiencyRatio
        , excessDistance := some (actualDistance - idealDistance) }

/-- The record returned by TrajectoryAnalyzer.analyzeTrajectory. -/
structure TrajectoryAnalysis where
  pathAccuracy : PathAccuracy
  basicStats : BasicStats
  phaseAnalysis : PhaseAnalysis
  stabilityMetrics : StabilityMetrics
  trajectoryEfficiency : Efficiency

/-- The flight-data fields consumed by TrajectoryAnalyzer.analyzeTrajectory:
the sample sequence and the optional ideal waypoint sequence. -/
structure FlightData where
  position_data : List Position
  sequence : Option (List Waypoint)

/-- TrajectoryAnalyzer.analyzeTrajectory. -/
noncomputable def analyzeTrajectory (flightData : FlightData) : TrajectoryAnalysis :=
  { pathAccuracy := calculatePathAccuracy flightData.position_data
  , basicStats := calculateBasicStats flightData.position_data
  , phaseAnalysis := analyzePhases flightData.position_data
  , stabilityMetrics := calculateStabilityMetrics flightData.position_data
  , trajectoryEfficiency := calculateEfficiency flightData.position_data flightData.sequence }

/-- Property names of the object literal returned by
TrajectoryAnalyzer.analyzeTrajectory (TrajectoryAnalyzer.js lines 9-15). -/
def analyzeTrajectoryKeys : List String :=
  ["pathAccuracy", "basicStats", "phaseAnalysis", "stabilityMetrics", "trajectoryEfficiency"]

/-- Top-level properties of the per-flight analysis object dereferenced by the
flight-comparison route when it builds each flight's metrics record
(analysis.stabilityMetrics.overallStabilityScore,
analysis.trajectoryEfficiency.efficiencyRatio,
analysis.turnAnalysis.pathSmoothness,
analysis.networkCorrelation.networkErrorCorrelation,
analysis.turnAnalysis.totalTurns,
analysis.stabilityMetrics.stabilizationRatio). -/
def compareMetricsAnalysisKeys : List String :=
  ["stabilityMetrics", "trajectoryEfficiency", "turnAnalysis", "networkCorrelation"]

/-- A sample as consumed by analyzeNetworkImpact: processed position data whose
error field is always present (the processor defaults it to 0), with an
optional network quality. -/
structure NetSample where
  networkQuality : Option ℚ
  error : ℚ
  stabilized : Bool

/-- The defaulted quality (p.networkQuality || 100): an absent value and the
falsy value 0 both fall back to 100. -/
def effectiveQuality (p : NetSample) : ℚ :=
  match p.networkQuality with
  | none => 100
  | some q => if q = 0 then 100 else q

/-- Samples with defaulted quality at least 90. -/
def excellentSeg (ps : List NetSample) : List NetSample :=
  ps.filter fun p => decide (90 ≤ effectiveQuality p)

/-- Samples with defaulted quality in [70, 90). -/
def goodSeg (ps : List NetSample) : List NetSample :=
  ps.filter fun p => decide (70 ≤ effectiveQuality p) && decide (effectiveQuality p < 90)

/-- Samples with defaulted quality in [50, 70). -/
def fairSeg (ps : List NetSample) : List NetSample :=
  ps.filter fun p => decide (50 ≤ effectiveQuality p) && decide (effectiveQuality p < 70)

/-- Samples with defaulted quality below 50. -/
def poorSeg (ps : List NetSample) : List NetSample :=
  ps.filter fun p => decide (effectiveQuality p < 50)

/-- Per-bucket statistics of analyzeNetworkImpact; the toFixed string
formatting of percentage, averageError and stabilizationRate is elided and the
pre-formatting values are kept. -/
structure SegmentStats where
  count : Nat
  percentage : ℚ
  averageError : ℚ
  stabilizationRate : ℚ
deriving DecidableEq

/-- The statistics computed for one non-empty bucket. -/
def mkSegmentStats (total : Nat) (data : List NetSample) : SegmentStats :=
  { count := data.length
  , percentage := (data.length : ℚ) / total * 100
  , averageError := (data.map fun p => p.error).sum / data.length
  , stabilizationRate := ((data.filter fun p => p.stabilized).length : ℚ) / data.length * 100 }

/-- The four quality buckets of analyzeNetworkImpact in source order. -/
def networkSegments (ps : List NetSample) : List (String × List NetSample) :=
  [("excellent", excellentSeg ps), ("good", goodSeg ps),
   ("fair", fairSeg ps), ("poor", poorSeg ps)]

/-- The segmentAnalysis object of analyzeNetworkImpact: a bucket contributes an
entry only when it holds at least one sample. -/
def segmentAnalysis (ps : List NetSample) : List (String × SegmentStats) :=
  (networkSegments ps).filterMap fun pr =>
    if 0 < pr.2.length then some (pr.1, mkSegmentStats ps.length pr.2) else none

/-- The discriminant n * (sum of squares) - (sum)^2 appearing (for each input
series) under the square root of calculateCorrelation's denominator. -/
def scatter (l : List ℚ) : ℚ :=
  (l.length : ℚ) * (l.map fun v => v * v).sum - l.sum * l.sum

/-- The numerator of calculateCorrelation: n * sumXY - sumX * sumY, with
n = x.length and sumXY accumulated over the paired entries. -/
def corrNumerator (x y : List ℚ) : ℚ :=
  (x.length : ℚ) * ((x.zip y).map fun p => p.1 * p.2).sum - x.sum * y.sum

/-- The radicand of calculateCorrelation's denominator:
(n * sumXX - sumX * sumX) * (n * sumYY - sumY * sumY), with n = x.length as in
the source (both inputs have equal length when this is reached). -/
def corrDenominatorSq (x y : List ℚ) : ℚ :=
  ((x.length : ℚ) * (x.map fun v => v * v).sum - x.sum * x.sum)
    * ((x.length : ℚ) * (y.map fun v => v * v).sum - y.sum * y.sum)

/-- calculateCorrelation from the analysis routes module: Pearson correlation
with an early 0 on length mismatch or empty input, and 0 when the denominator
is zero. -/
noncomputable def calculateCorrelation (x y : List ℚ) : ℝ :=
  if x.length ≠ y.length ∨ x.length = 0 then 0
  else if Real.sqrt ((corrDenominatorSq x y : ℚ)) = 0 then 0
  else (corrNumerator x y : ℝ) / Real.sqrt ((corrDenominatorSq x y : ℚ))

/-- The per-flight fields inspected by identifyCommonIssues:
analysis.positionAccuracy.overall.average and analysis.battery.startVoltage. -/
structure FlightRecord where
  averageError : ℚ
  startVoltage : ℚ

/-- Issue string pushed when more than half of the flights exceed the 0.1 m
average-error threshold. -/
def highErrorMessage : String :=
  "More than 50% of flights show high positioning errors (>10cm)"

/-- Issue string pushed when more than 30% of the flights started below 3.9 V. -/
def lowBatteryMessage : String :=
  "30% of flights started with low battery voltage (<3.9V)"

/-- identifyCommonIssues from the analysis routes module. -/
def identifyCommonIssues (flights : List FlightRecord) : List String :=
  let highErrorFlights := flights.filter fun f => decide (f.averageError > 0.1)
  let lowBatteryFlights := flights.filter fun f => decide (f.startVoltage < 3.9)
  (if (highErrorFlights.length : ℚ) > (flights.length : ℚ) * 0.5 then [highErrorMessage] else [])
    ++ (if (lowBatteryFlights.length : ℚ) > (flights.length : ℚ) * 0.3 then [lowBatteryMessage] else [])

/-- A sample carrying only an error value, used to build concrete witness
flights (all other fields neutral). -/
def mkErrSample (e : ℚ) : Position :=
  { x := 0, y := 0, z := 0, time := 0, error := some e, error_xy := none, error_z := none
  , phase := "transit", stabilized := false, sequence_index := none }

/-! ### Helper lemmas -/

/-- Average of a non-empty list whose elements all equal c is c. -/
theorem listAvg_const (xs : List ℚ) (c : ℚ) (hne : xs ≠ []) (hall : ∀ a ∈ xs, a = c) :
    listAvg xs = c := by
  have hlen : (xs.length : ℚ) ≠ 0 :=
    Nat.cast_ne_zero.mpr (List.length_pos.mpr hne).ne'
  have hsum : xs.sum = (xs.length : ℚ) * c := by
    conv_lhs => rw [List.eq_replicate_iff.mpr ⟨rfl, hall⟩]
    simp [List.sum_replicate, nsmul_eq_mul]
  rw [listAvg, hsum, mul_div_cancel_left₀ _ hlen]

/-- The actual path length is a sum of square roots, hence nonnegative. -/
theorem calculateActualDistance_nonneg (positions : List Position) :
    0 ≤ calculateActualDistance positions := by
  rw [calculateActualDistance]
  apply List.sum_nonneg
  intro x hx
  rw [List.mem_map] at hx
  obtain ⟨pr, _, rfl⟩ := hx
  exact Real.sqrt_nonneg _

/-- The ideal path length is a sum of square roots, hence nonnegative. -/
theorem calculateIdealDistance_nonneg (sequence : List Waypoint) :
    0 ≤ calculateIdealDistance sequence := by
  rw [calculateIdealDistance]
  apply List.sum_nonneg
  intro x hx
  rw [List.mem_map] at hx
  obtain ⟨pr, _, rfl⟩ := hx
  exact Real.sqrt_nonneg _

/-- The standard deviation is 0 or a square root, hence nonnegative. -/
theorem calculateStandardDeviation_nonneg (values : List ℚ) :
    0 ≤ calculateStandardDeviation values := by
  rw [calculateStandardDeviation]
  split
  · exact le_refl 0
  · exact Real.sqrt_nonneg _

/-- The stability score is the clamped linear function of the stored
errorVariance field. -/
theorem overallStabilityScore_eq (positions : List Position) :
    (calculateStabilityMetrics positions).overallStabilityScore
      = max 0 (100 - (calculateStabilityMetrics positions).errorVariance * 1000) := rfl

/-- The four bucket filters split every sample list exactly. -/
theorem networkSegments_partition (ps : List NetSample) :
    (excellentSeg ps).length + (goodSeg ps).length + (fairSeg ps).length
      + (poorSeg ps).length = ps.length := by
  induction ps with
  | nil => rfl
  | cons p t ih =>
    simp only [excellentSeg, goodSeg, fairSeg, poorSeg, List.filter_cons] at ih ⊢
    rcases lt_or_le (effectiveQuality p) 50 with h | h
    · have c1 : decide (90 ≤ effectiveQuality p) = false := decide_eq_false (by linarith)
      have c2 : decide (70 ≤ effectiveQuality p) = false := decide_eq_false (by linarith)
      have c3 : decide (50 ≤ effectiveQuality p) = false := decide_eq_false (by linarith)
      have c4 : decide (effectiveQuality p < 50) = true := decide_eq_true h
      simp [c1, c2, c3, c4, List.length_cons]
      omega
    · rcases lt_or_le (effectiveQuality p) 70 with h2 | h2
      · have c1 : decide (90 ≤ effectiveQuality p) = false := decide_eq_false (by linarith)
        have c2 : decide (70 ≤ effectiveQuality p) = false := decide_eq_false (by linarith)
        have c3 : decide (50 ≤ effectiveQuality p) = true := decide_eq_true h
        have c4 : decide (effectiveQuality p < 50) = false := decide_eq_false (by linarith)
        have c5 : decide (effectiveQuality p < 70) = true := decide_eq_true h2
        simp [c1, c2, c3, c4, c5, List.length_cons]
        omega
      · rcases lt_or_le (effectiveQuality p) 90 with h3 | h3
        · have c1 : decide (90 ≤ effectiveQuality p) = false := decide_eq_false (by linarith)
          have c2 : decide (70 ≤ effectiveQuality p) = true := decide_eq_true h2
          have c3 : decide (50 ≤ effectiveQuality p) = true := decide_eq_true (by linarith)
          have c4 : decide (effectiveQuality p < 50) = false := decide_eq_false (by linarith)
          have c5 : decide (effectiveQuality p < 70) = false := decide_eq_false (by linarith)
          have c6 : decide (effectiveQuality p < 90) = true := decide_eq_true h3
          simp [c1, c2, c3, c4, c5, c6, List.length_cons]
          omega
        · have c1 : decide (90 ≤ effectiveQuality p) = true := decide_eq_true h3
          have c2 : decide (70 ≤ effectiveQuality p) = true := decide_eq_true (by linarith)
          have c3 : decide (50 ≤ effectiveQuality p) = true := decide_eq_true (by linarith)
          have c4 : decide (effectiveQuality p < 50) = false := decide_eq_false (by linarith)
          have c5 : decide (effectiveQuality p < 70) = false := decide_eq_false (by linarith)
          have c6 : decide (effectiveQuality p < 90) = false := decide_eq_false (by linarith)
          simp [c1, c2, c3, c4, c5, c6, List.length_cons]
          omega

/-- Pairing a list with itself multiplies each entry with itself. -/
theorem zipSelfMul (x : List ℚ) :
    ((x.zip x).map fun p => p.1 * p.2) = x.map fun v => v * v := by
  induction x with
  | nil => rfl
  | cons a t ih => simp only [List.zip_cons_cons, List.map_cons, ih]

/-- Expansion of a sum of squared differences from a fixed value. -/
theorem sub_sq_sum (c : ℚ) (t : List ℚ) :
    (t.map fun b => (c - b) * (c - b)).sum
      = (t.length : ℚ) * (c * c) - 2 * c * t.sum + (t.map fun v => v * v).sum := by
  induction t with
  | nil => simp
  | cons b t ih =>
    simp only [List.map_cons, List.sum_cons, List.length_cons, ih]
    push_cast
    ring

/-- Cons step for the correlation discriminant. -/
theorem scatter_cons (c : ℚ) (t : List ℚ) :
    scatter (c :: t) = scatter t + (t.map fun b => (c - b) * (c - b)).sum := by
  rw [scatter, scatter, sub_sq_sum]
  simp only [List.map_cons, List.sum_cons, List.length_cons]
  push_cast
  ring

/-- A sum of squared differences is nonnegative. -/
theorem sub_sq_sum_nonneg (c : ℚ) (t : List ℚ) :
    0 ≤ (t.map fun b => (c - b) * (c - b)).sum := by
  apply List.sum_nonneg
  intro v hv
  rw [List.mem_map] at hv
  obtain ⟨b, _, rfl⟩ := hv
  exact mul_self_nonneg _

/-- The correlation discriminant n * (sum of squares) - (sum)^2 is nonnegative. -/
theorem scatter_nonneg (l : List ℚ) : 0 ≤ scatter l := by
  induction l with
  | nil => simp [scatter]
  | cons c t ih =>
    rw [scatter_cons]
    exact add_nonneg ih (sub_sq_sum_nonneg c t)

/-- The correlation discriminant is strictly positive on a non-constant list. -/
theorem scatter_pos (l : List ℚ) (a b : ℚ) (hab : a ≠ b) :
    a ∈ l → b ∈ l → 0 < scatter l := by
  induction l with
  | nil => intro ha _; cases ha
  | cons c t ih =>
    intro ha hb
    rw [scatter_cons]
    rcases List.mem_cons.mp ha with rfl | hat
    · rcases List.mem_cons.mp hb with rfl | hbt
      · exact absurd rfl hab
      · have hterm : 0 < (a - b) * (a - b) := mul_self_pos.mpr (sub_ne_zero.mpr hab)
        have hle : (a - b) * (a - b) ≤ (t.map fun x => (a - x) * (a - x)).sum :=
          List.single_le_sum
            (fun v hv => by
              rw [List.mem_map] at hv
              obtain ⟨w, _, rfl⟩ := hv
              exact mul_self_nonneg _) _
            (List.mem_map_of_mem _ hbt)
        have := scatter_nonneg t
        linarith
    · rcases List.mem_cons.mp hb with rfl | hbt
      · have hterm : 0 < (b - a) * (b - a) :=
          mul_self_pos.mpr (sub_ne_zero.mpr (Ne.symm hab))
        have hle : (b - a) * (b - a) ≤ (t.map fun x => (b - x) * (b - x)).sum :=
          List.single_le_sum
            (fun v hv => by
              rw [List.mem_map] at hv
              obtain ⟨w, _, rfl⟩ := hv
              exact mul_self_nonneg _) _
            (List.mem_map_of_mem _ hat)
        have := scatter_nonneg t
        linarith
      · have hpos := ih hat hbt
        have := sub_sq_sum_nonneg c t
        linarith

/-- The correlation discriminant vanishes on a constant list. -/
theorem scatter_const (l : List ℚ) (c : ℚ) (h : ∀ a ∈ l, a = c) : scatter l = 0 := by
  have hrep : l = List.replicate l.length c := List.eq_replicate_iff.mpr ⟨rfl, h⟩
  rw [scatter]
  conv_lhs => rw [hrep]
  simp only [List.length_replicate, List.map_replicate, List.sum_replicate, nsmul_eq_mul]
  ring

/-! ### Claim theorems -/

/-- C1: the spec requires analyzeTrajectory to include turning-behavior metrics
and a network-error correlation, and the flight-comparison route dereferences
analysis.turnAnalysis and analysis.networkCorrelation on every compared flight;
but the object analyzeTrajectory returns carries neither key, so the
comparison's metric extraction hits undefined for every input. -/
theorem C1_turn_and_network_fields_missing :
    "turnAnalysis" ∈ compareMetricsAnalysisKeys ∧
    "networkCorrelation" ∈ compareMetricsAnalysisKeys ∧
    "turnAnalysis" ∉ analyzeTrajectoryKeys ∧
    "networkCorrelation" ∉ analyzeTrajectoryKeys := by
  decide

/-- C2 counterexample: on the even-length input [1, 2] calculateStats returns
2, the UPPER of the two middle elements, not the element at index
length / 2 - 1 = 0 (the lower middle element, 1) that the claim specifies. -/
theorem C2_median_upper_counterexample :
    (calculateStats [(1 : ℚ), 2]).median = 2 ∧
    (calculateStats [(1 : ℚ), 2]).median ≠ [(1 : ℚ), 2].getD (2 / 2 - 1) 0 := by
  have h : (calculateStats [(1 : ℚ), 2]).median = 2 := by
    norm_num [calculateStats, sortedCopy, List.insertionSort, List.orderedInsert]
  refine ⟨h, ?_⟩
  rw [h]
  norm_num

/-- C2 (amended): for every non-empty input, the median returned by
calculateStats is the element at index ⌊length / 2⌋ of the value-sorted
rearrangement — on even length the UPPER of the two middle elements. -/
theorem C2_median_floor_index (values sortedL : List ℚ) (hne : values ≠ [])
    (hperm : sortedL.Perm values) (hsort : sortedL.Sorted (· ≤ ·)) :
    (calculateStats values).median = sortedL.getD (values.length / 2) 0 := by
  have hs : sortedCopy values = sortedL :=
    List.eq_of_perm_of_sorted ((List.perm_insertionSort _ values).trans hperm.symm)
      (List.sorted_insertionSort _ values) hsort
  have hlen : ¬ values.length = 0 := fun h => hne (List.length_eq_zero.mp h)
  have hlen2 : (sortedCopy values).length = values.length :=
    (List.perm_insertionSort _ values).length_eq
  rw [calculateStats, if_neg hlen]
  rw [show ({ average := values.sum / values.length
            , median := (sortedCopy values).getD ((sortedCopy values).length / 2) 0
            , min := (sortedCopy values).getD 0 0
            , max := (sortedCopy values).getD ((sortedCopy values).length - 1) 0 } : Stats).median
        = (sortedCopy values).getD ((sortedCopy values).length / 2) 0 from rfl]
  rw [hlen2, hs]

/-- Witness for C2_median_floor_index at the concrete input [1, 2]. -/
theorem C2_median_floor_index_witness :
    (calculateStats [(1 : ℚ), 2]).median = [(1 : ℚ), 2].getD (2 / 2) 0 :=
  C2_median_floor_index [(1 : ℚ), 2] [(1 : ℚ), 2] (by simp)
    (List.Perm.refl _) (by norm_num [List.Sorted])

/-- C3 counterexample: the series 100, 101, 102, 103 is strictly monotonically
increasing and has length 4, yet calculateTrendDirection returns stable (the
half-average change is below 10 percent), not improving. -/
theorem C3_increasing_not_improving :
    List.Chain' (· < ·) [(100 : ℚ), 101, 102, 103] ∧
    calculateTrendDirection [(100 : ℚ), 101, 102, 103] = "stable" := by
  constructor
  · norm_num
  · norm_num [calculateTrendDirection, changePercentJs, firstHalfAvg, secondHalfAvg,
      listAvg, jsDiv, JsNum.mulPos, JsNum.gtQ, JsNum.ltQ]

/-- C3 (amended): on a strictly increasing series of length at least 4,
calculateTrendDirection returns improving when additionally the second-half
average exceeds the (positive) first-half average by more than 10 percent of
it; on every constant series of length at least 2 it returns stable; on every
length-1 series it returns insufficient_data. -/
theorem C3_trend_direction (l : List ℚ) :
    (List.Chain' (· < ·) l → 4 ≤ l.length → 0 < firstHalfAvg l →
        firstHalfAvg l * (11 / 10) < secondHalfAvg l →
        calculateTrendDirection l = "improving") ∧
    (2 ≤ l.length → (∀ a ∈ l, ∀ b ∈ l, a = b) → calculateTrendDirection l = "stable") ∧
    (l.length = 1 → calculateTrendDirection l = "insufficient_data") := by
  refine ⟨?_, ?_, ?_⟩
  · intro _ h4 hpos hgt
    have h2 : ¬ l.length < 2 := by omega
    have hne : firstHalfAvg l ≠ 0 := ne_of_gt hpos
    have hq : (10 : ℚ) < (secondHalfAvg l - firstHalfAvg l) / firstHalfAvg l * 100 := by
      rw [div_mul_eq_mul_div, lt_div_iff₀ hpos]
      nlinarith
    have hgtq : (changePercentJs l).gtQ 10 = true := by
      rw [changePercentJs, jsDiv, if_neg hne]
      simpa [JsNum.mulPos, JsNum.gtQ] using hq
    rw [calculateTrendDirection, if_neg h2, if_pos hgtq]
  · intro h2 hconst
    have h2' : ¬ l.length < 2 := by omega
    rcases l with _ | ⟨c, t⟩
    · simp at h2
    · have hc : ∀ a ∈ c :: t, a = c := fun a ha => hconst a ha c (by simp)
      have htne : (c :: t).take ((c :: t).length / 2) ≠ [] := by
        apply List.ne_nil_of_length_pos
        rw [List.length_take, List.length_cons]
        simp only [List.length_cons] at h2
        omega
      have hdne : (c :: t).drop ((c :: t).length / 2) ≠ [] := by
        apply List.ne_nil_of_length_pos
        rw [List.length_drop, List.length_cons]
        omega
      have hf : firstHalfAvg (c :: t) = c :=
        listAvg_const _ _ htne (fun a ha => hc a (List.take_subset _ _ ha))
      have hs : secondHalfAvg (c :: t) = c :=
        listAvg_const _ _ hdne (fun a ha => hc a (List.drop_subset _ _ ha))
      by_cases hz : c = 0
      · rw [calculateTrendDirection, if_neg h2', changePercentJs, hf, hs, hz]
        norm_num [jsDiv, JsNum.mulPos, JsNum.gtQ, JsNum.ltQ]
      · rw [calculateTrendDirection, if_neg h2', changePercentJs, hf, hs, jsDiv, if_neg hz]
        norm_num [JsNum.mulPos, JsNum.gtQ, JsNum.ltQ]
  · intro h1
    rw [calculateTrendDirection, if_pos (by omega)]

/-- Witness for C3_trend_direction: a qualifying increasing series, a constant
series, and a singleton. -/
theorem C3_trend_direction_witness :
    calculateTrendDirection [(0 : ℚ), 1, 2, 3] = "improving" ∧
    calculateTrendDirection [(5 : ℚ), 5] = "stable" ∧
    calculateTrendDirection [(7 : ℚ)] = "insufficient_data" := by
  refine ⟨?_, ?_, ?_⟩
  · exact (C3_trend_direction [(0 : ℚ), 1, 2, 3]).1 (by norm_num) (by norm_num)
      (by norm_num [firstHalfAvg, listAvg])
      (by norm_num [firstHalfAvg, secondHalfAvg, listAvg])
  · exact (C3_trend_direction [(5 : ℚ), 5]).2.1 (by norm_num) (by norm_num)
  · exact (C3_trend_direction [(7 : ℚ)]).2.2 (by norm_num)

/-- C4 counterexample: the length-2 series 0, 1 is accepted by both trend
operations, yet the relative-change value is +Infinity in both (division by the
zero first average / first value), so not every numeric output is finite. -/
theorem C4_infinite_change_counterexample :
    changePercentJs [(0 : ℚ), 1] = JsNum.posInf ∧
    overallChangeJs [(0 : ℚ), 1] = JsNum.posInf ∧
    (calculateTrendSummary [(0 : ℚ), 1]).map TrendSummary.overallChange = some JsNum.posInf := by
  have h1 : changePercentJs [(0 : ℚ), 1] = JsNum.posInf := by
    norm_num [changePercentJs, firstHalfAvg, secondHalfAvg, listAvg, jsDiv, JsNum.mulPos]
  have h2 : overallChangeJs [(0 : ℚ), 1] = JsNum.posInf := by
    norm_num [overallChangeJs, jsDiv, JsNum.mulPos]
  refine ⟨h1, h2, ?_⟩
  rw [calculateTrendSummary, if_neg (by norm_num)]
  simp [h2]

/-- C4 (amended): the relative-change computations of the trend operations
return a finite value whenever their divisor — the first-half average for
calculateTrendDirection's changePercent, the first data value for
calculateTrendSummary's overallChange — is nonzero; with a zero divisor the
JavaScript result is NaN or a signed Infinity. -/
theorem C4_relative_change_finite (l : List ℚ) :
    (firstHalfAvg l ≠ 0 → (changePercentJs l).isFinite = true) ∧
    (l.getD 0 0 ≠ 0 → (overallChangeJs l).isFinite = true) := by
  constructor
  · intro h
    rw [changePercentJs, jsDiv, if_neg h]
    rfl
  · intro h
    rw [overallChangeJs, jsDiv, if_neg h]
    rfl

/-- Witness for C4_relative_change_finite at the series 1, 2. -/
theorem C4_relative_change_finite_witness :
    (changePercentJs [(1 : ℚ), 2]).isFinite = true ∧
    (overallChangeJs [(1 : ℚ), 2]).isFinite = true :=
  ⟨(C4_relative_change_finite [(1 : ℚ), 2]).1 (by norm_num [firstHalfAvg, listAvg]),
   (C4_relative_change_finite [(1 : ℚ), 2]).2 (by norm_num)⟩

/-- C5 counterexample: on a flight with zero samples the overall stability
score is 100 (the zero-variance maximum), not zero as the claim's "every
numeric field is zero" requires. -/
theorem C5_empty_flight_score_not_zero :
    (analyzeTrajectory { position_data := [], sequence := none
      }).stabilityMetrics.overallStabilityScore = 100 ∧ (100 : ℝ) ≠ 0 := by
  constructor
  · show (calculateStabilityMetrics []).overallStabilityScore = 100
    rw [overallStabilityScore_eq]
    have hv : (calculateStabilityMetrics []).errorVariance = 0 := by
      show calculateStandardDeviation (([] : List Position).map fun p => p.error.getD 0) = 0
      simp [calculateStandardDeviation]
    rw [hv, show (100 : ℝ) - 0 * 1000 = 100 by ring,
      max_eq_right (by norm_num : (0 : ℝ) ≤ 100)]
  · norm_num

/-- C5 (amended): analyzeTrajectory on a flight with zero samples succeeds and
yields degenerate metrics: every path-accuracy, basic-stats, phase-breakdown,
stabilization and variance field is zero, while the overall stability score is
100 (the zero-variance maximum of the clamped linear scale) and the efficiency
ratio is the 0.85 fallback. -/
theorem C5_empty_flight_degenerate :
    (analyzeTrajectory { position_data := [], sequence := none }).pathAccuracy
        = { averageError := 0, maxError := 0, minError := 0, totalPoints := 0
          , xyPlaneAccuracy := { average := 0, max := 0, min := 0 }
          , altitudeAccuracy := { average := 0, max := 0, min := 0 } } ∧
    (analyzeTrajectory { position_data := [], sequence := none }).basicStats
        = { totalPoints := 0, waypointPoints := 0, transitPoints := 0, sequenceIndices := [] } ∧
    (analyzeTrajectory { position_data := [], sequence := none }).phaseAnalysis
        = { waypoint := { count := 0, averageError := 0, stabilizedCount := 0
                        , stabilizationRate := 0 }
          , transit := { count := 0, averageError := 0, stabilizedCount := 0
                       , stabilizationRate := 0 } } ∧
    (analyzeTrajectory { position_data := [], sequence := none
      }).stabilityMetrics.stabilizationRatio = 0 ∧
    (analyzeTrajectory { position_data := [], sequence := none
      }).stabilityMetrics.stabilizedPoints = 0 ∧
    (analyzeTrajectory { position_data := [], sequence := none
      }).stabilityMetrics.unstabilizedPoints = 0 ∧
    (analyzeTrajectory { position_data := [], sequence := none
      }).stabilityMetrics.errorVariance = 0 ∧
    (analyzeTrajectory { position_data := [], sequence := none
      }).stabilityMetrics.overallStabilityScore = 100 ∧
    (analyzeTrajectory { position_data := [], sequence := none
      }).trajectoryEfficiency.actualDistance = 0 ∧
    (analyzeTrajectory { position_data := [], sequence := none
      }).trajectoryEfficiency.idealDistance = 0 ∧
    (analyzeTrajectory { position_data := [], sequence := none
      }).trajectoryEfficiency.efficiencyRatio = 0.85 := by
  have hv : (calculateStabilityMetrics []).errorVariance = 0 := by
    show calculateStandardDeviation (([] : List Position).map fun p => p.error.getD 0) = 0
    simp [calculateStandardDeviation]
  refine ⟨?_, ?_, ?_, ?_, rfl, rfl, hv, ?_, ?_, rfl, rfl⟩
  · show calculatePathAccuracy [] = _
    simp [calculatePathAccuracy]
  · show calculateBasicStats [] = _
    simp [calculateBasicStats, extractSequenceInfo, jsDefaultSortNat]
  · show analyzePhases [] = _
    simp [analyzePhases, phaseStatsOf]
  · show (calculateStabilityMetrics []).stabilizationRatio = 0
    rfl
  · show (calculateStabilityMetrics []).overallStabilityScore = 100
    rw [overallStabilityScore_eq, hv, show (100 : ℝ) - 0 * 1000 = 100 by ring,
      max_eq_right (by norm_num : (0 : ℝ) ≤ 100)]
  · show (calculateEfficiency [] none).actualDistance = 0
    simp [calculateEfficiency, calculateActualDistance]

/-- C6: the efficiency ratio always lies in [0, 1]; an absent ideal sequence, a
sequence with fewer than 2 waypoints, or a sequence of total ideal distance 0
each produce exactly the 0.85 fallback. -/
theorem C6_efficiency_ratio (positions : List Position) (sequence : Option (List Waypoint)) :
    (0 ≤ (calculateEfficiency positions sequence).efficiencyRatio ∧
        (calculateEfficiency positions sequence).efficiencyRatio ≤ 1) ∧
    (sequence = none → (calculateEfficiency positions sequence).efficiencyRatio = 0.85) ∧
    (∀ seq, sequence = some seq → seq.length < 2 ∨ calculateIdealDistance seq = 0 →
        (calculateEfficiency positions sequence).efficiencyRatio = 0.85) := by
  rcases sequence with _ | seq
  · refine ⟨⟨?_, ?_⟩, fun _ => rfl, fun s hs => absurd hs (by simp)⟩
    · rw [show (calculateEfficiency positions none).efficiencyRatio = 0.85 from rfl]
      norm_num
    · rw [show (calculateEfficiency positions none).efficiencyRatio = 0.85 from rfl]
      norm_num
  · by_cases hlen : seq.length < 2
    · have hr : (calculateEfficiency positions (some seq)).efficiencyRatio = 0.85 := by
        show (if seq.length < 2 then _ else _ : Efficiency).efficiencyRatio = 0.85
        rw [if_pos hlen]
      refine ⟨⟨?_, ?_⟩, fun h => absurd h (by simp), fun s hs _ => ?_⟩
      · rw [hr]; norm_num
      · rw [hr]; norm_num
      · obtain rfl : s = seq := by injection hs.symm
        exact hr
    · have hI : 0 ≤ calculateIdealDistance seq := calculateIdealDistance_nonneg seq
      have hA : 0 ≤ calculateActualDistance positions := calculateActualDistance_nonneg positions
      have hr : (calculateEfficiency positions (some seq)).efficiencyRatio
          = if 0 < calculateIdealDistance seq ∧ calculateActualDistance positions = 0 then 1
            else min 1 (if 0 < calculateIdealDistance seq
              then calculateIdealDistance seq / calculateActualDistance positions else 0.85) := by
        show (if seq.length < 2 then _ else _ : Efficiency).efficiencyRatio = _
        rw [if_neg hlen]
      refine ⟨⟨?_, ?_⟩, fun h => absurd h (by simp), fun s hs hcase => ?_⟩
      · rw [hr]
        split
        · norm_num
        · rename_i hcond
          apply le_min (by norm_num)
          split
          · rename_i hpos
            have hAne : calculateActualDistance positions ≠ 0 := fun h0 => hcond ⟨hpos, h0⟩
            exact div_nonneg hI hA
          · norm_num
      · rw [hr]
        split
        · norm_num
        · exact min_le_left _ _
      · obtain rfl : s = seq := by injection hs.symm
        rcases hcase with h | h
        · exact absurd h hlen
        · rw [hr, if_neg (by rw [h]; simp), if_neg (by rw [h]; simp)]
          rw [min_eq_right (by norm_num : (0.85 : ℝ) ≤ 1)]

/-- Witness for C6_efficiency_ratio at an empty sample list with an absent and
with a degenerate ideal sequence. -/
theorem C6_efficiency_ratio_witness :
    (calculateEfficiency [] none).efficiencyRatio = 0.85 ∧
    (calculateEfficiency [] (some [])).efficiencyRatio = 0.85 :=
  ⟨(C6_efficiency_ratio [] none).2.1 rfl,
   (C6_efficiency_ratio [] (some [])).2.2 [] rfl (Or.inl (by norm_num))⟩

/-- C7: the overall stability score is max(0, 100 - stddev(errors) * 1000)
with stddev the population standard deviation of the per-sample errors; the
score always lies in [0, 100], a zero stored deviation scores exactly 100, and
raising the stored deviation from 0.01 to 0.02 lowers the score by exactly 10. -/
theorem C7_stability_score (positions p1 p2 : List Position)
    (h1 : (calculateStabilityMetrics p1).errorVariance = 0.01)
    (h2 : (calculateStabilityMetrics p2).errorVariance = 0.02) :
    (calculateStabilityMetrics positions).overallStabilityScore
        = max 0 (100 - calculateStandardDeviation (positions.map fun p => p.error.getD 0) * 1000) ∧
    0 ≤ (calculateStabilityMetrics positions).overallStabilityScore ∧
    (calculateStabilityMetrics positions).overallStabilityScore ≤ 100 ∧
    ((calculateStabilityMetrics positions).errorVariance = 0 →
        (calculateStabilityMetrics positions).overallStabilityScore = 100) ∧
    (calculateStabilityMetrics p1).overallStabilityScore
        - (calculateStabilityMetrics p2).overallStabilityScore = 10 := by
  have hnn : ∀ ps : List Position, 0 ≤ (calculateStabilityMetrics ps).errorVariance :=
    fun ps => calculateStandardDeviation_nonneg _
  refine ⟨rfl, le_max_left _ _, ?_, ?_, ?_⟩
  · rw [overallStabilityScore_eq]
    apply max_le (by norm_num)
    nlinarith [hnn positions]
  · intro h0
    rw [overallStabilityScore_eq, h0, show (100 : ℝ) - 0 * 1000 = 100 by ring,
      max_eq_right (by norm_num : (0 : ℝ) ≤ 100)]
  · rw [overallStabilityScore_eq p1, overallStabilityScore_eq p2, h1, h2,
      show (100 : ℝ) - 0.01 * 1000 = 90 by norm_num,
      show (100 : ℝ) - 0.02 * 1000 = 80 by norm_num,
      max_eq_right (by norm_num : (0 : ℝ) ≤ 90),
      max_eq_right (by norm_num : (0 : ℝ) ≤ 80)]
    norm_num

/-- Witness for C7_stability_score: samples with error standard deviation
exactly 0.01 and exactly 0.02. -/
theorem C7_stability_score_witness :
    0 ≤ (calculateStabilityMetrics [mkErrSample 1]).overallStabilityScore ∧
    (calculateStabilityMetrics [mkErrSample 0, mkErrSample (1 / 50)]).overallStabilityScore
        - (calculateStabilityMetrics [mkErrSample 0, mkErrSample (1 / 25)]).overallStabilityScore
        = 10 := by
  have h1 : (calculateStabilityMetrics [mkErrSample 0, mkErrSample (1 / 50)]).errorVariance
      = 0.01 := by
    show calculateStandardDeviation
      ([mkErrSample 0, mkErrSample (1 / 50)].map fun p => p.error.getD 0) = 0.01
    rw [show List.map (fun p => p.error.getD 0) [mkErrSample 0, mkErrSample (1 / 50)]
        = [(0 : ℚ), 1 / 50] by simp [mkErrSample]]
    rw [calculateStandardDeviation, if_neg (by norm_num)]
    norm_num [calculateMean]
    rw [show ((10000 : ℝ)) = 100 ^ 2 by norm_num,
      Real.sqrt_sq (by norm_num : (0 : ℝ) ≤ 100)]
    norm_num
  have h2 : (calculateStabilityMetrics [mkErrSample 0, mkErrSample (1 / 25)]).errorVariance
      = 0.02 := by
    show calculateStandardDeviation
      ([mkErrSample 0, mkErrSample (1 / 25)].map fun p => p.error.getD 0) = 0.02
    rw [show List.map (fun p => p.error.getD 0) [mkErrSample 0, mkErrSample (1 / 25)]
        = [(0 : ℚ), 1 / 25] by simp [mkErrSample]]
    rw [calculateStandardDeviation, if_neg (by norm_num)]
    norm_num [calculateMean]
    rw [show ((2500 : ℝ)) = 50 ^ 2 by norm_num,
      Real.sqrt_sq (by norm_num : (0 : ℝ) ≤ 50)]
    norm_num
  exact ⟨(C7_stability_score [mkErrSample 1] _ _ h1 h2).2.1,
    (C7_stability_score [mkErrSample 1] _ _ h1 h2).2.2.2.2⟩

/-- C8: after defaulting absent network quality to 100, every sample falls in
exactly one of the four buckets, so the bucket counts sum to the sample count;
and a bucket appears in the segment analysis exactly when it is non-empty. -/
theorem C8_bucket_partition (ps : List NetSample) :
    (excellentSeg ps).length + (goodSeg ps).length + (fairSeg ps).length
        + (poorSeg ps).length = ps.length ∧
    ("excellent" ∈ (segmentAnalysis ps).map Prod.fst ↔ excellentSeg ps ≠ []) ∧
    ("good" ∈ (segmentAnalysis ps).map Prod.fst ↔ goodSeg ps ≠ []) ∧
    ("fair" ∈ (segmentAnalysis ps).map Prod.fst ↔ fairSeg ps ≠ []) ∧
    ("poor" ∈ (segmentAnalysis ps).map Prod.fst ↔ poorSeg ps ≠ []) := by
  refine ⟨networkSegments_partition ps, ?_, ?_, ?_, ?_⟩ <;>
    (by_cases h1 : 0 < (excellentSeg ps).length <;>
     by_cases h2 : 0 < (goodSeg ps).length <;>
     by_cases h3 : 0 < (fairSeg ps).length <;>
     by_cases h4 : 0 < (poorSeg ps).length <;>
     simp_all [segmentAnalysis, networkSegments, List.filterMap_cons, List.length_pos])

/-- C9: correlation of a non-constant sequence with itself is exactly 1;
pairing any sequence with an equal-length constant sequence gives 0 (zero
variance degenerate case), as do length mismatch and empty input. -/
theorem C9_correlation (x y : List ℚ) :
    ((∃ a ∈ x, ∃ b ∈ x, a ≠ b) → calculateCorrelation x x = 1) ∧
    ((∀ a ∈ y, ∀ b ∈ y, a = b) → x.length = y.length → calculateCorrelation x y = 0) ∧
    (x.length ≠ y.length ∨ x = [] → calculateCorrelation x y = 0) := by
  refine ⟨?_, ?_, ?_⟩
  · rintro ⟨a, ha, b, hb, hab⟩
    have hx0 : x.length ≠ 0 := by
      intro h0
      rw [List.length_eq_zero.mp h0] at ha
      cases ha
    have hbranch : ¬(x.length ≠ x.length ∨ x.length = 0) := by
      push_neg
      exact ⟨rfl, hx0⟩
    have hApos : 0 < scatter x := scatter_pos x a b hab ha hb
    have hAposR : (0 : ℝ) < (scatter x : ℝ) := by exact_mod_cast hApos
    have hd : corrDenominatorSq x x = scatter x * scatter x := rfl
    have hn : corrNumerator x x = scatter x := by
      rw [corrNumerator, zipSelfMul]
      rfl
    have hsqrt : Real.sqrt ((corrDenominatorSq x x : ℚ)) = (scatter x : ℝ) := by
      rw [hd]
      push_cast
      exact Real.sqrt_mul_self hAposR.le
    rw [calculateCorrelation, if_neg hbranch, if_neg (by rw [hsqrt]; exact hAposR.ne'),
      hsqrt, hn]
    exact div_self hAposR.ne'
  · intro hconst hlen
    rcases y with _ | ⟨c, t⟩
    · rw [calculateCorrelation, if_pos (Or.inr (by simpa using hlen))]
    · have hbranch : ¬(x.length ≠ (c :: t).length ∨ x.length = 0) := by
        push_neg
        refine ⟨hlen, ?_⟩
        rw [hlen]
        simp
      have hcy : ∀ a ∈ c :: t, a = c := fun a haa => hconst a haa c (by simp)
      have hsc : scatter (c :: t) = 0 := scatter_const _ _ hcy
      simp only [scatter] at hsc
      have hd0 : corrDenominatorSq x (c :: t) = 0 := by
        rw [corrDenominatorSq, hlen, hsc, mul_zero]
      rw [calculateCorrelation, if_neg hbranch, if_pos (by rw [hd0]; simp)]
  · intro h
    rcases h with h | h
    · rw [calculateCorrelation, if_pos (Or.inl h)]
    · rw [calculateCorrelation, if_pos (Or.inr (by rw [h]; rfl))]

/-- Witness for C9_correlation: a non-constant pair with itself, a constant
partner, and a length mismatch. -/
theorem C9_correlation_witness :
    calculateCorrelation [(0 : ℚ), 1] [(0 : ℚ), 1] = 1 ∧
    calculateCorrelation [(0 : ℚ), 1] [(5 : ℚ), 5] = 0 ∧
    calculateCorrelation [(1 : ℚ)] [] = 0 := by
  refine ⟨?_, ?_, ?_⟩
  · exact (C9_correlation [(0 : ℚ), 1] [(0 : ℚ), 1]).1
      ⟨0, by norm_num, 1, by norm_num, by norm_num⟩
  · exact (C9_correlation [(0 : ℚ), 1] [(5 : ℚ), 5]).2.1
      (by intro a ha b hb; simp at ha hb; rw [ha, hb]) rfl
  · exact (C9_correlation [(1 : ℚ)] []).2.2 (Or.inl (by norm_num))

/-- C10: identifyCommonIssues flags high positioning error exactly when
strictly more than 50 percent of the flights have average error above 0.1 m,
and flags low battery exactly when strictly more than 30 percent of the
flights started below 3.9 V. -/
theorem C10_common_issues (flights : List FlightRecord) :
    (highErrorMessage ∈ identifyCommonIssues flights ↔
        ((flights.filter fun f => decide (f.averageError > 0.1)).length : ℚ)
          > (flights.length : ℚ) * 0.5) ∧
    (lowBatteryMessage ∈ identifyCommonIssues flights ↔
        ((flights.filter fun f => decide (f.startVoltage < 3.9)).length : ℚ)
          > (flights.length : ℚ) * 0.3) := by
  have hne : highErrorMessage ≠ lowBatteryMessage := by decide
  have hne2 : lowBatteryMessage ≠ highErrorMessage := hne.symm
  by_cases h1 : ((flights.filter fun f => decide (f.averageError > 0.1)).length : ℚ)
      > (flights.length : ℚ) * 0.5 <;>
    by_cases h2 : ((flights.filter fun f => decide (f.startVoltage < 3.9)).length : ℚ)
        > (flights.length : ℚ) * 0.3 <;>
      simp_all [identifyCommonIssues, hne, hne2]

end UAV
